import Mathlib

/-!
Shallow embedding of `image_analysis_pipeline/findmycells/inspection.py`.

A label volume (`zstack`) is a list of 2D planes; each plane is a list of
rows; each row is a list of integer labels, where `0` is background.
This mirrors a 3D numpy integer array of shape (z, x, y).
-/

namespace FindMyCells

/-- The label values of one 2D plane, flattened in C order (row-major),
as `numpy` enumerates array elements. -/
def flattenPlane (plane : List (List Int)) : List Int :=
  plane.flatten

/-- All label values of a 3D volume, flattened in C order. -/
def flattenVolume (zstack : List (List (List Int))) : List Int :=
  (zstack.map flattenPlane).flatten

/-- `np.unique`: the sorted, duplicate-free ascending list of values. -/
def np_unique (l : List Int) : List Int :=
  l.dedup.insertionSort (· ≤ ·)

/-- The two guarded `label_ids.remove(background_id)` calls of
`InspectionObject.get_label_id` (for backgrounds `0` and `0.0`, which are
the same integer value here): `List.erase` removes the first occurrence
when present and is a no-op otherwise, exactly like the guarded
`list.remove`. -/
def remove_background (l : List Int) : List Int :=
  (l.erase 0).erase 0

/-- `label_ids` as computed by `InspectionObject.get_label_id`:
`list(np.unique(self.zstack))` with background ids removed. -/
def label_ids_of (zstack : List (List (List Int))) : List Int :=
  remove_background (np_unique (flattenVolume zstack))

/-- Python list indexing `l[i]`: non-negative indices address from the
front, negative indices address from the back (`l[-k]` is `l[len(l)-k]`),
and anything else raises `IndexError` (modelled as `none`). -/
def pyGet {α : Type} (l : List α) (i : Int) : Option α :=
  if 0 ≤ i then l.get? i.toNat
  else if i.natAbs ≤ l.length then l.get? (l.length - i.natAbs)
  else none

/-- `InspectionObject.get_label_id`: index into the background-free
unique labels with Python list-index semantics. -/
def get_label_id (zstack : List (List (List Int))) (index : Int) : Option Int :=
  pyGet (label_ids_of zstack) index

/-- Number of cells of one plane carrying a given label. -/
def count_on_plane (plane : List (List Int)) (label : Int) : Nat :=
  (flattenPlane plane).count label

/-- `np.where(self.zstack == self.label_id)[0]`: the first-axis (plane)
index of every matching cell, in C order — ascending plane indices with
one entry per matching cell (so a plane holding k cells of the label
contributes k copies of its index). -/
def planes_with_label (zstack : List (List (List Int))) (label : Int) : List Nat :=
  (List.range zstack.length).flatMap
    (fun p => List.replicate (count_on_plane (zstack.getD p []) label) p)

/-- `InspectionObject.get_plane_id`: the element at position
`int(len(all_planes_with_label_id) / 2)` when the list has more than one
entry, else its single entry; `none` when the label is absent. -/
def get_plane_id (zstack : List (List (List Int))) (label : Int) : Option Nat :=
  let all_planes_with_label_id := planes_with_label zstack label
  if all_planes_with_label_id.length > 1 then
    all_planes_with_label_id.get? (all_planes_with_label_id.length / 2)
  else
    all_planes_with_label_id.get? 0

/-- `InspectReconstructedCells2D.adjust_cropping_box_to_image_borders`:
the four-branch, first-match window clamp. -/
def adjust_cropping_box_to_image_borders (centroid_coord max_value half_window_size : Int) :
    Int × Int :=
  if centroid_coord - half_window_size ≥ 0 ∧ centroid_coord + half_window_size ≤ max_value then
    (centroid_coord - half_window_size, centroid_coord + half_window_size)
  else if centroid_coord - half_window_size < 0 ∧ 2 * half_window_size ≤ max_value then
    (0, 2 * half_window_size)
  else if centroid_coord - 2 * half_window_size ≥ 0 ∧
      centroid_coord + half_window_size > max_value then
    (max_value - 2 * half_window_size, max_value)
  else
    (0, max_value)

example : adjust_cropping_box_to_image_borders 500 1000 200 = (300, 700) := by decide
example : adjust_cropping_box_to_image_borders 50 1000 200 = (0, 400) := by decide
example : adjust_cropping_box_to_image_borders 950 1000 200 = (600, 1000) := by decide
example : adjust_cropping_box_to_image_borders 50 300 200 = (0, 300) := by decide
example : adjust_cropping_box_to_image_borders 350 500 200 = (0, 500) := by decide

example : get_plane_id [[[1, 1]], [[1, 0]]] 1 = some 0 := by decide
example : label_ids_of [[[1, 2]]] = [1, 2] := by decide
example : get_label_id [[[1, 2]]] (-1) = some 2 := by decide

lemma getD_eq_get {α : Type} (l : List α) (d : α) {n : Nat} (h : n < l.length) :
    l.getD n d = l.get ⟨n, h⟩ := by
  simp [List.getD_eq_getElem?_getD, List.getElem?_eq_getElem h]

lemma mem_np_unique {l : List Int} {a : Int} : a ∈ np_unique l ↔ a ∈ l := by
  simp [np_unique, List.mem_insertionSort, List.mem_dedup]

lemma np_unique_nodup (l : List Int) : (np_unique l).Nodup :=
  ((l.dedup.perm_insertionSort (· ≤ ·)).nodup_iff).mpr l.nodup_dedup

lemma mem_remove_background {l : List Int} {a : Int} (h : l.Nodup) :
    a ∈ remove_background l ↔ a ≠ 0 ∧ a ∈ l := by
  unfold remove_background
  rw [(h.erase 0).mem_erase_iff, h.mem_erase_iff]
  tauto

lemma mem_label_ids {v : List (List (List Int))} {a : Int} :
    a ∈ label_ids_of v ↔ a ≠ 0 ∧ a ∈ flattenVolume v := by
  unfold label_ids_of
  rw [mem_remove_background (np_unique_nodup _), mem_np_unique]

lemma mem_flattenVolume {v : List (List (List Int))} {a : Int} :
    a ∈ flattenVolume v ↔ ∃ p, p < v.length ∧ a ∈ flattenPlane (v.getD p []) := by
  simp only [flattenVolume, List.mem_flatten, List.mem_map]
  constructor
  · rintro ⟨l, ⟨pl, hpl, rfl⟩, ha⟩
    obtain ⟨⟨p, hp⟩, rfl⟩ := List.mem_iff_get.mp hpl
    exact ⟨p, hp, by rw [getD_eq_get _ _ hp]; exact ha⟩
  · rintro ⟨p, hp, ha⟩
    refine ⟨flattenPlane (v.getD p []), ⟨v.getD p [], ?_, rfl⟩, ha⟩
    rw [getD_eq_get _ _ hp]
    exact List.get_mem v _ hp

lemma mem_planes_with_label {v : List (List (List Int))} {label : Int} {p : Nat} :
    p ∈ planes_with_label v label ↔
      p < v.length ∧ 0 < count_on_plane (v.getD p []) label := by
  simp only [planes_with_label, List.mem_flatMap, List.mem_range, List.mem_replicate]
  constructor
  · rintro ⟨q, hq, hcnt, rfl⟩
    exact ⟨hq, Nat.pos_of_ne_zero hcnt⟩
  · rintro ⟨hp, hcnt⟩
    exact ⟨p, hp, Nat.pos_iff_ne_zero.mp hcnt, rfl⟩

lemma count_on_plane_pos {plane : List (List Int)} {label : Int} :
    0 < count_on_plane plane label ↔ label ∈ flattenPlane plane := by
  unfold count_on_plane
  exact List.count_pos_iff

lemma get_plane_id_eq (v : List (List (List Int))) (label : Int) :
    get_plane_id v label =
      (planes_with_label v label).get? ((planes_with_label v label).length / 2) := by
  simp only [get_plane_id]
  split_ifs with h
  · rfl
  · have h0 : (planes_with_label v label).length / 2 = 0 := by omega
    rw [h0]

/-- The claim's wording of the window clamper (refinement comparison side):
four branches tried in order, first match wins. -/
def clamp_spec (centroid_coord axis_extent half_window : Int) : Int × Int :=
  if centroid_coord - half_window ≥ 0 ∧ centroid_coord + half_window ≤ axis_extent then
    (centroid_coord - half_window, centroid_coord + half_window)
  else if centroid_coord - half_window < 0 ∧ 2 * half_window ≤ axis_extent then
    (0, 2 * half_window)
  else if centroid_coord - 2 * half_window ≥ 0 ∧
      centroid_coord + half_window > axis_extent then
    (axis_extent - 2 * half_window, axis_extent)
  else
    (0, axis_extent)

lemma adjust_width_eq (c m hw : Int) (_h0 : 0 ≤ c) (_h1 : c ≤ m) (_h2 : 0 ≤ hw)
    (hfit : 2 * hw ≤ m) (hside : c + hw ≤ m ∨ 2 * hw ≤ c) :
    (adjust_cropping_box_to_image_borders c m hw).2
      - (adjust_cropping_box_to_image_borders c m hw).1 = 2 * hw := by
  unfold adjust_cropping_box_to_image_borders
  split_ifs with hb1 hb2 hb3 <;> dsimp only <;> omega

lemma adjust_fallback_eq (c m hw : Int) (_h0 : 0 ≤ c) (h1 : c ≤ m) (_h2 : 0 ≤ hw)
    (hnot : m < 2 * hw ∨ (m < c + hw ∧ c < 2 * hw)) :
    adjust_cropping_box_to_image_borders c m hw = (0, m) := by
  unfold adjust_cropping_box_to_image_borders
  split_ifs with hb1 hb2 hb3
  · exfalso; omega
  · exfalso; omega
  · exfalso; omega
  · rfl

/-- The crosshair drawn by `plot_reconstructed_cells` on the representative
plane's third panel: `plt.plot([185, 215], [200, 200])` followed by
`plt.plot([200, 200], [185, 215])` — two fixed-size segments crossing at
the fixed point (200, 200) of the cropped frame's data coordinates. -/
def crosshair_segments : List (List Int × List Int) :=
  [([185, 215], [200, 200]), ([200, 200], [185, 215])]

/-- The crossing point of the two segments of `crosshair_segments`. -/
def crosshair_center : Int × Int := (200, 200)

/-- From the claim's wording: twice the geometric-center coordinate of a
crop window `(lower, upper)` as seen in the cropped frame, where the
window occupies `[0, upper - lower)`; the center is `(upper - lower) / 2`,
kept doubled to stay in integers. -/
def window_center_doubled (w : Int × Int) : Int := w.2 - w.1

/-- C2: for all in-range inputs the window clamper returns exactly the
claim's four-branch first-match result, and the four concrete examples
`clamp(500,1000,200) = (300,700)`, `clamp(50,1000,200) = (0,400)`,
`clamp(950,1000,200) = (600,1000)`, `clamp(50,300,200) = (0,300)` hold. -/
theorem C2_clamp_matches_claim :
    (∀ centroid_coord axis_extent half_window : Int,
        0 ≤ centroid_coord → centroid_coord ≤ axis_extent → 0 ≤ half_window →
        adjust_cropping_box_to_image_borders centroid_coord axis_extent half_window =
          clamp_spec centroid_coord axis_extent half_window) ∧
    adjust_cropping_box_to_image_borders 500 1000 200 = (300, 700) ∧
    adjust_cropping_box_to_image_borders 50 1000 200 = (0, 400) ∧
    adjust_cropping_box_to_image_borders 950 1000 200 = (600, 1000) ∧
    adjust_cropping_box_to_image_borders 50 300 200 = (0, 300) :=
  ⟨fun _ _ _ _ _ _ => rfl, by decide, by decide, by decide, by decide⟩

/-- Witness for C2 at `clamp(500, 1000, 200)`. -/
theorem C2_clamp_matches_claim_witness :
    adjust_cropping_box_to_image_borders 500 1000 200 = clamp_spec 500 1000 200 :=
  C2_clamp_matches_claim.1 500 1000 200 (by decide) (by decide) (by decide)

/-- C3 fails as stated: at `clamp(350, 500, 200)` the requested window
fits (`2*200 = 400 ≤ 500`) yet the clamper falls through to the whole
axis `(0, 500)`, whose width `500` is not `2*200`. -/
theorem C3_width_counterexample :
    2 * (200 : Int) ≤ 500 ∧
    adjust_cropping_box_to_image_borders 350 500 200 = (0, 500) ∧
    (adjust_cropping_box_to_image_borders 350 500 200).2
      - (adjust_cropping_box_to_image_borders 350 500 200).1 ≠ 2 * 200 := by
  decide

/-- C3 (amended): the width is exactly `2*half_window` whenever
`2*half_window ≤ axis_extent` AND additionally `centroid + half_window ≤
axis_extent` or `centroid ≥ 2*half_window`; in the remaining cases — the
axis smaller than `2*half_window`, or the near-high-edge gap where
`centroid + half_window > axis_extent` while `centroid < 2*half_window` —
the window is the full axis `(0, axis_extent)`. -/
theorem C3_width_amended (centroid_coord axis_extent half_window : Int)
    (h0 : 0 ≤ centroid_coord) (h1 : centroid_coord ≤ axis_extent)
    (h2 : 0 ≤ half_window) :
    (2 * half_window ≤ axis_extent ∧
        (centroid_coord + half_window ≤ axis_extent ∨
          2 * half_window ≤ centroid_coord) →
      (adjust_cropping_box_to_image_borders centroid_coord axis_extent half_window).2
        - (adjust_cropping_box_to_image_borders centroid_coord axis_extent half_window).1
        = 2 * half_window) ∧
    (axis_extent < 2 * half_window ∨
        (axis_extent < centroid_coord + half_window ∧
          centroid_coord < 2 * half_window) →
      adjust_cropping_box_to_image_borders centroid_coord axis_extent half_window =
        (0, axis_extent)) :=
  ⟨fun h => adjust_width_eq _ _ _ h0 h1 h2 h.1 h.2,
   fun h => adjust_fallback_eq _ _ _ h0 h1 h2 h⟩

/-- Witness for C3 (amended) at `clamp(500, 1000, 200)` and
`clamp(50, 300, 200)`. -/
theorem C3_width_amended_witness :
    (adjust_cropping_box_to_image_borders 500 1000 200).2
      - (adjust_cropping_box_to_image_borders 500 1000 200).1 = 2 * 200 ∧
    adjust_cropping_box_to_image_borders 50 300 200 = (0, 300) :=
  ⟨(C3_width_amended 500 1000 200 (by decide) (by decide) (by decide)).1
      (by exact ⟨by decide, Or.inl (by decide)⟩),
   (C3_width_amended 50 300 200 (by decide) (by decide) (by decide)).2
      (by exact Or.inl (by decide))⟩

/-- C5: for all in-range inputs the clamped window `(lower, upper)`
satisfies `0 ≤ lower ≤ upper ≤ axis_extent`. -/
theorem C5_clamp_bounds (centroid_coord axis_extent half_window : Int)
    (h0 : 0 ≤ centroid_coord) (h1 : centroid_coord ≤ axis_extent)
    (h2 : 0 < axis_extent) (h3 : 0 ≤ half_window) :
    0 ≤ (adjust_cropping_box_to_image_borders centroid_coord axis_extent half_window).1 ∧
    (adjust_cropping_box_to_image_borders centroid_coord axis_extent half_window).1 ≤
      (adjust_cropping_box_to_image_borders centroid_coord axis_extent half_window).2 ∧
    (adjust_cropping_box_to_image_borders centroid_coord axis_extent half_window).2 ≤
      axis_extent := by
  unfold adjust_cropping_box_to_image_borders
  split_ifs with hb1 hb2 hb3 <;> dsimp only <;> omega

/-- Witness for C5 at `clamp(950, 1000, 200)`. -/
theorem C5_clamp_bounds_witness :
    0 ≤ (adjust_cropping_box_to_image_borders 950 1000 200).1 ∧
    (adjust_cropping_box_to_image_borders 950 1000 200).1 ≤
      (adjust_cropping_box_to_image_borders 950 1000 200).2 ∧
    (adjust_cropping_box_to_image_borders 950 1000 200).2 ≤ 1000 :=
  C5_clamp_bounds 950 1000 200 (by decide) (by decide) (by decide) (by decide)

/-- C8 fails as stated: for a 300-wide axis with centroid 150 the crop
window is the whole axis `(0, 300)`, whose geometric center is 150, while
the crosshair is drawn at the fixed coordinate 200. -/
theorem C8_crosshair_counterexample :
    adjust_cropping_box_to_image_borders 150 300 200 = (0, 300) ∧
    2 * crosshair_center.1 ≠
      window_center_doubled (adjust_cropping_box_to_image_borders 150 300 200) := by
  decide

/-- C8 (amended): the crosshair is drawn at the fixed position (200, 200)
of the cropped frame — the two plotted segments cross there — and that
point is the crop window's geometric center on every axis where the
clamper returned a full-size `2*200`-wide window, whichever branch
produced it (the fallback branch included, when the axis extent happens
to equal 400); it is not the center for narrower windows. -/
theorem C8_crosshair_amended (cx mx cy my : Int)
    (hxw : (adjust_cropping_box_to_image_borders cx mx 200).2
      - (adjust_cropping_box_to_image_borders cx mx 200).1 = 2 * 200)
    (hyw : (adjust_cropping_box_to_image_borders cy my 200).2
      - (adjust_cropping_box_to_image_borders cy my 200).1 = 2 * 200) :
    crosshair_segments = [([185, 215], [200, 200]), ([200, 200], [185, 215])] ∧
    2 * crosshair_center.1 =
      window_center_doubled (adjust_cropping_box_to_image_borders cx mx 200) ∧
    2 * crosshair_center.2 =
      window_center_doubled (adjust_cropping_box_to_image_borders cy my 200) := by
  refine ⟨rfl, ?_, ?_⟩ <;>
    simp only [crosshair_center, window_center_doubled] <;> omega

/-- Witness for C8 (amended): the x-axis exercises the fallback branch
returning a full-size window over the whole 400-wide axis
(`adjust(300, 400, 200) = (0, 400)`), the y-axis the centered branch in
a 1000-wide axis. -/
theorem C8_crosshair_amended_witness :
    2 * crosshair_center.1 =
      window_center_doubled (adjust_cropping_box_to_image_borders 300 400 200) ∧
    2 * crosshair_center.2 =
      window_center_doubled (adjust_cropping_box_to_image_borders 500 1000 200) :=
  (C8_crosshair_amended 300 400 500 1000 (by decide) (by decide)).2

/-- The claim's wording of the representative-plane rule (refinement
comparison side): the element at position `floor(n/2)` of the ordered,
duplicate-free ascending list of the n planes on which the label appears
(for `n = 1`, position `floor(1/2) = 0` is that single plane, as the
claim states). -/
def claimed_plane_selector (zstack : List (List (List Int))) (label : Int) : Option Nat :=
  let planes := (planes_with_label zstack label).dedup
  planes.get? (planes.length / 2)

lemma all_eq_get? {l : List Nat} {p : Nat} (hall : ∀ q ∈ l, q = p)
    {k : Nat} (hk : k < l.length) : l.get? k = some p := by
  rw [List.get?_eq_get hk]
  exact congrArg some (hall _ (List.get_mem l k hk))

lemma planes_with_label_nodup {zstack : List (List (List Int))} {label : Int}
    (h : ∀ q, q < zstack.length → count_on_plane (zstack.getD q []) label ≤ 1) :
    (planes_with_label zstack label).Nodup := by
  unfold planes_with_label
  rw [List.nodup_flatMap]
  constructor
  · intro x hx
    rw [List.mem_range] at hx
    exact List.nodup_replicate.mpr (h x hx)
  · refine (List.pairwise_lt_range _).imp ?_
    intro a b hab
    intro x hxa hxb
    rw [List.mem_replicate] at hxa hxb
    omega

/-- C1 fails as stated: in the volume `[[[1, 1]], [[1, 0]]]` label 1
appears on planes 0 and 1, so the claim's duplicate-free rule picks the
plane at position `floor(2/2) = 1`, i.e. plane 1; but `np.where` lists
the plane index of every matching cell (`[0, 0, 1]` here), so the code
picks the entry at position `floor(3/2) = 1`, i.e. plane 0. -/
theorem C1_plane_selector_counterexample :
    get_plane_id [[[1, 1]], [[1, 0]]] 1 = some 0 ∧
    claimed_plane_selector [[[1, 1]], [[1, 0]]] 1 = some 1 ∧
    get_plane_id [[[1, 1]], [[1, 0]]] 1 ≠
      claimed_plane_selector [[[1, 1]], [[1, 0]]] 1 := by
  decide

/-- C1 (amended): (a) if the label appears on exactly one plane, the
selector returns that plane (however many cells carry it there); (b) the
claim's duplicate-free positional-midpoint rule holds whenever the label
occupies at most one cell on every plane — in general the selector takes
the positional midpoint of the per-cell (with multiplicity) ascending
plane list instead. -/
theorem C1_plane_selector_amended (zstack : List (List (List Int))) (label : Int) :
    (∀ p, p < zstack.length → 0 < count_on_plane (zstack.getD p []) label →
      (∀ q, q < zstack.length → 0 < count_on_plane (zstack.getD q []) label → q = p) →
      get_plane_id zstack label = some p) ∧
    ((∀ q, q < zstack.length → count_on_plane (zstack.getD q []) label ≤ 1) →
      get_plane_id zstack label = claimed_plane_selector zstack label) := by
  constructor
  · intro p hp hcnt huniq
    rw [get_plane_id_eq]
    have hall : ∀ q ∈ planes_with_label zstack label, q = p := by
      intro q hq
      obtain ⟨hql, hqc⟩ := mem_planes_with_label.mp hq
      exact huniq q hql hqc
    have hmem : p ∈ planes_with_label zstack label :=
      mem_planes_with_label.mpr ⟨hp, hcnt⟩
    have hlen : 0 < (planes_with_label zstack label).length :=
      List.length_pos.mpr (List.ne_nil_of_mem hmem)
    exact all_eq_get? hall (Nat.div_lt_self hlen (by omega))
  · intro hle
    rw [get_plane_id_eq]
    unfold claimed_plane_selector
    rw [List.dedup_eq_self.mpr (planes_with_label_nodup hle)]

/-- Witness for C1 (amended): part (a) on a volume whose label 1 sits in
two cells of the single plane 0, part (b) on a volume with at most one
cell of label 1 per plane. -/
theorem C1_plane_selector_amended_witness :
    get_plane_id [[[1, 1]]] 1 = some 0 ∧
    get_plane_id [[[1, 0]], [[1, 0]], [[0, 0]]] 1 =
      claimed_plane_selector [[[1, 0]], [[1, 0]], [[0, 0]]] 1 :=
  ⟨(C1_plane_selector_amended [[[1, 1]]] 1).1 0 (by decide) (by decide)
      (by intro q hq _; simp only [List.length_singleton] at hq; omega),
   (C1_plane_selector_amended [[[1, 0]], [[1, 0]], [[0, 0]]] 1).2
      (by intro q hq; simp only [List.length_cons, List.length_nil] at hq;
          interval_cases q <;> decide)⟩

/-- C4: for every volume and every label index in
`[0, count of unique non-background labels)`, the selection returns a
label drawn from the volume's unique non-zero values together with a
plane on which that label is present. -/
theorem C4_selector_sound (zstack : List (List (List Int))) (i : Nat)
    (hi : i < (label_ids_of zstack).length) :
    ∃ lab, get_label_id zstack (i : Int) = some lab ∧
      lab ∈ label_ids_of zstack ∧ lab ≠ 0 ∧
      ∃ p, get_plane_id zstack lab = some p ∧ p < zstack.length ∧
        lab ∈ flattenPlane (zstack.getD p []) := by
  have hsome : get_label_id zstack (i : Int) =
      some ((label_ids_of zstack).get ⟨i, hi⟩) := by
    unfold get_label_id pyGet
    rw [if_pos (Int.natCast_nonneg i), Int.toNat_natCast]
    exact List.get?_eq_get hi
  have hmemL : (label_ids_of zstack).get ⟨i, hi⟩ ∈ label_ids_of zstack :=
    List.get_mem _ i hi
  obtain ⟨hne0, hvol⟩ := mem_label_ids.mp hmemL
  obtain ⟨q, hq, hqmem⟩ := mem_flattenVolume.mp hvol
  have hqplanes : q ∈ planes_with_label zstack ((label_ids_of zstack).get ⟨i, hi⟩) :=
    mem_planes_with_label.mpr ⟨hq, count_on_plane_pos.mpr hqmem⟩
  have hlen : 0 < (planes_with_label zstack ((label_ids_of zstack).get ⟨i, hi⟩)).length :=
    List.length_pos.mpr (List.ne_nil_of_mem hqplanes)
  have hk : (planes_with_label zstack ((label_ids_of zstack).get ⟨i, hi⟩)).length / 2 <
      (planes_with_label zstack ((label_ids_of zstack).get ⟨i, hi⟩)).length :=
    Nat.div_lt_self hlen (by omega)
  obtain ⟨hplt, hpcnt⟩ := mem_planes_with_label.mp
    (List.get_mem (planes_with_label zstack ((label_ids_of zstack).get ⟨i, hi⟩)) _ hk)
  refine ⟨(label_ids_of zstack).get ⟨i, hi⟩, hsome, hmemL, hne0,
    (planes_with_label zstack ((label_ids_of zstack).get ⟨i, hi⟩)).get ⟨_, hk⟩,
    ?_, hplt, count_on_plane_pos.mp hpcnt⟩
  rw [get_plane_id_eq]
  exact List.get?_eq_get hk

/-- Witness for C4 on the volume `[[[1, 2]]]` at label index 0. -/
theorem C4_selector_sound_witness :
    0 < (label_ids_of [[[1, 2]]]).length ∧
    (∃ lab, get_label_id [[[1, 2]]] (0 : Nat) = some lab ∧
      lab ∈ label_ids_of [[[1, 2]]] ∧ lab ≠ 0 ∧
      ∃ p, get_plane_id [[[1, 2]]] lab = some p ∧ p < [[[1, 2]]].length ∧
        lab ∈ flattenPlane ([[[1, 2]]].getD p [])) :=
  ⟨by decide, C4_selector_sound [[[1, 2]]] 0 (by decide)⟩

/-- C7 fails as stated: on the volume `[[[1, 2]]]` the label count is 2,
the index `-1` lies outside `0 ≤ label_index < 2`, yet selection
succeeds and returns label 2: Python list indexing accepts negative
offsets from the back instead of raising. -/
theorem C7_out_of_range_counterexample :
    (label_ids_of [[[1, 2]]]).length = 2 ∧
    ¬(0 ≤ (-1 : Int) ∧ (-1 : Int) < 2) ∧
    get_label_id [[[1, 2]]] (-1) = some 2 := by
  decide

/-- C7 (amended): selection fails exactly when the label index is at
least the count of unique non-background labels or below the negated
count; every index in `[-count, count)` succeeds, negative indices
addressing labels from the back, Python style. -/
theorem C7_label_index_range_amended (zstack : List (List (List Int))) (i : Int) :
    get_label_id zstack i = none ↔
      ((label_ids_of zstack).length : Int) ≤ i ∨
        i < -((label_ids_of zstack).length : Int) := by
  unfold get_label_id pyGet
  split_ifs with h1 h2
  · rw [List.get?_eq_none]
    omega
  · rw [List.get?_eq_none]
    omega
  · constructor
    · intro _
      omega
    · intro _
      rfl

/-- Witness for C7 (amended): no failure at index -2 of a two-label
volume. -/
theorem C7_label_index_range_amended_witness :
    ¬(get_label_id [[[1, 2]]] (-2) = none) := by
  rw [C7_label_index_range_amended [[[1, 2]]] (-2)]
  decide

/-- One recorded overlay entry of the plotting info: the assigned color
and the boundary coordinates of one label's region on one plane. -/
structure PlotEntry where
  color : Nat
  boundary_x_coords : List Int
  boundary_y_coords : List Int
deriving DecidableEq

/-- Modelled from the spec: `get_color_code` lives in `utils.py`, which
is not among the sources here. Per §4.6 it deterministically assigns each
label of the given list its own color; colors are modelled as positions
in a fixed palette, i.e. the label's index in the ordered list. -/
def get_color_code (label_ids : List Int) : Int → Nat :=
  fun label_id => label_ids.indexOf label_id

/-- `InspectReconstructedCells2D.get_plotting_info`, with the external
polygon extractor (`get_polygon_from_instance_segmentation` of the
absent `utils.py`) passed in as `boundary`, returning the boundary x and
y coordinate lists of a label's region on one plane. The nested
`for label_id / for plane_index` loops with their
`if label_id in np.unique(zstack[plane_index])` guard become a flatMap
over labels of a filterMap over planes, producing the graph of the
nested dictionary as (plane, label, entry) triples; `color_code` is
computed once, from the unique non-zero labels of the whole volume. -/
def get_plotting_info (boundary : List (List Int) → Int → List Int × List Int)
    (zstack : List (List (List Int))) : List (Nat × Int × PlotEntry) :=
  let label_ids := label_ids_of zstack
  let color_code := get_color_code label_ids
  let z_dim := zstack.length
  label_ids.flatMap (fun label_id =>
    (List.range z_dim).filterMap (fun plane_index =>
      if label_id ∈ np_unique (flattenPlane (zstack.getD plane_index [])) then
        some (plane_index, label_id,
          { color := color_code label_id
            boundary_x_coords := (boundary (zstack.getD plane_index []) label_id).1
            boundary_y_coords := (boundary (zstack.getD plane_index []) label_id).2 })
      else none))

lemma mem_get_plotting_info {boundary : List (List Int) → Int → List Int × List Int}
    {zstack : List (List (List Int))} {p : Nat} {lab : Int} {e : PlotEntry} :
    (p, lab, e) ∈ get_plotting_info boundary zstack ↔
      lab ∈ label_ids_of zstack ∧ p < zstack.length ∧
        lab ∈ np_unique (flattenPlane (zstack.getD p [])) ∧
        e = { color := get_color_code (label_ids_of zstack) lab
              boundary_x_coords := (boundary (zstack.getD p []) lab).1
              boundary_y_coords := (boundary (zstack.getD p []) lab).2 } := by
  simp only [get_plotting_info, List.mem_flatMap, List.mem_filterMap, List.mem_range,
    Option.ite_none_right_eq_some, Option.some.injEq, Prod.mk.injEq]
  constructor
  · rintro ⟨a, ha, b, hb, hc, rfl, rfl, rfl⟩
    exact ⟨ha, hb, hc, rfl⟩
  · rintro ⟨hlab, hp, hmem, rfl⟩
    exact ⟨lab, hlab, p, hp, hmem, rfl, rfl, rfl⟩

/-- C6: the plotting info holds an entry under (plane, label) exactly
when the label is non-zero and occurs on that specific plane of the
cropped volume, and every recorded entry's color is taken from the one
color assignment computed over all non-zero labels present anywhere in
the volume. -/
theorem C6_plot_info_characterization
    (boundary : List (List Int) → Int → List Int × List Int)
    (zstack : List (List (List Int))) (p : Nat) (lab : Int) :
    ((∃ e, (p, lab, e) ∈ get_plotting_info boundary zstack) ↔
      p < zstack.length ∧ lab ≠ 0 ∧ lab ∈ flattenPlane (zstack.getD p [])) ∧
    (∀ e, (p, lab, e) ∈ get_plotting_info boundary zstack →
      e.color = get_color_code (label_ids_of zstack) lab) := by
  constructor
  · constructor
    · rintro ⟨e, he⟩
      obtain ⟨hlab, hp, hmem, -⟩ := mem_get_plotting_info.mp he
      exact ⟨hp, (mem_label_ids.mp hlab).1, mem_np_unique.mp hmem⟩
    · rintro ⟨hp, hne, hmem⟩
      refine ⟨_, mem_get_plotting_info.mpr ⟨?_, hp, mem_np_unique.mpr hmem, rfl⟩⟩
      exact mem_label_ids.mpr ⟨hne, mem_flattenVolume.mpr ⟨p, hp, hmem⟩⟩
  · intro e he
    obtain ⟨-, -, -, rfl⟩ := mem_get_plotting_info.mp he
    rfl

/-- Witness for C6 on the spec's example shape: labels 3 and 7, label 3
on planes 0 and 1, label 7 only on plane 1 — an entry for (1, 7) exists,
none for (0, 7). -/
theorem C6_plot_info_characterization_witness :
    (∃ e, ((1 : Nat), (7 : Int), e) ∈
        get_plotting_info (fun _ _ => ([], [])) [[[3, 0]], [[3, 7]]]) ∧
    ¬(∃ e, ((0 : Nat), (7 : Int), e) ∈
        get_plotting_info (fun _ _ => ([], [])) [[[3, 0]], [[3, 7]]]) :=
  ⟨(C6_plot_info_characterization (fun _ _ => ([], [])) [[[3, 0]], [[3, 7]]] 1 7).1.mpr
      (by decide),
   fun h => absurd
      ((C6_plot_info_characterization (fun _ _ => ([], [])) [[[3, 0]], [[3, 7]]] 0 7).1.mp h)
      (by decide)⟩

/-- The state of an `InspectionObject` that `InspectReconstructedCells2D.run`
touches: the loaded label volume and the selected label and plane. -/
structure InspectionObjectState where
  zstack : List (List (List Int))
  label_id : Int
  plane_id : Nat

/-- `ndarray.copy()`: a value copy of the volume; in this pure embedding
a copy is the same value, and whatever is later done with the copy
cannot reach the source array. -/
def np_copy (zstack : List (List (List Int))) : List (List (List Int)) :=
  zstack

/-- Numpy basic slicing `zstack[:, cminx:cmaxx, cminy:cmaxy]` for
non-negative bounds: every plane is kept, rows `cminx ≤ r < cmaxx` and
columns `cminy ≤ c < cmaxy` survive (clipped at the array ends). -/
def crop_zstack (zstack : List (List (List Int))) (cminx cmaxx cminy cmaxy : Nat) :
    List (List (List Int)) :=
  zstack.map (fun plane =>
    ((plane.drop cminx).take (cmaxx - cminx)).map (fun row =>
      (row.drop cminy).take (cmaxy - cminy)))

/-- `InspectReconstructedCells2D.get_cropping_indices`, with the external
polygon extraction and `round(roi.centroid.x), round(roi.centroid.y)`
summed up in `rounded_centroid` (the rounded centroid of the label's
region on the given plane); the axis extents are the representative
plane's `shape[0]` and `shape[1]`, and `half_window_size` is 200. -/
def get_cropping_indices (rounded_centroid : List (List Int) → Int → Int × Int)
    (obj : InspectionObjectState) : Int × Int × Int × Int :=
  let half_window_size : Int := 200
  let plane := obj.zstack.getD obj.plane_id []
  let centroid := rounded_centroid plane obj.label_id
  let max_x : Int := plane.length
  let max_y : Int := (plane.getD 0 []).length
  let cx := adjust_cropping_box_to_image_borders centroid.1 max_x half_window_size
  let cy := adjust_cropping_box_to_image_borders centroid.2 max_y half_window_size
  (cx.1, cx.2, cy.1, cy.2)

/-- What one `InspectReconstructedCells2D.run` call hands to the figure
assembler. -/
structure Run2DOutput where
  cropped_zstack : List (List (List Int))
  plotting_info : List (Nat × Int × PlotEntry)
  cropped_preprocessed_zstack : List (List (List Int))
  cropped_instance_seg_zstack : List (List (List Int))
  plane_id_of_interest : Nat

/-- `InspectReconstructedCells2D.run`: compute the cropping box, crop a
copy of the loaded label volume, build the plotting info, load matching
crops of the raw and instance-segmentation volumes through the external
loaders, and return everything for plotting, together with the
inspection object's state after the call. The external collaborators —
polygon centroid, polygon boundary, and the two directory loaders — are
passed in as functions. -/
def run_2D (rounded_centroid : List (List Int) → Int → Int × Int)
    (boundary : List (List Int) → Int → List Int × List Int)
    (load_preprocessed load_instance_seg :
      Int × Int × Int × Int → List (List (List Int)))
    (obj : InspectionObjectState) : Run2DOutput × InspectionObjectState :=
  let c := get_cropping_indices rounded_centroid obj
  let cminx := c.1
  let cmaxx := c.2.1
  let cminy := c.2.2.1
  let cmaxy := c.2.2.2
  let cropped_zstack :=
    crop_zstack (np_copy obj.zstack) cminx.toNat cmaxx.toNat cminy.toNat cmaxy.toNat
  let plotting_info := get_plotting_info boundary cropped_zstack
  let cropped_preprocessed_zstack := load_preprocessed (cminx, cmaxx, cminy, cmaxy)
  let cropped_instance_seg_zstack := load_instance_seg (cminx, cmaxx, cminy, cmaxy)
  ({ cropped_zstack := cropped_zstack
     plotting_info := plotting_info
     cropped_preprocessed_zstack := cropped_preprocessed_zstack
     cropped_instance_seg_zstack := cropped_instance_seg_zstack
     plane_id_of_interest := obj.plane_id }, obj)

/-- C9: a 2D inspection run never mutates the loaded label volume: for
every choice of the external centroid, boundary and loader functions,
the inspection object after the run carries an element-for-element equal
zstack, and the volume handed to plotting is a fresh crop of a copy of
the source. -/
theorem C9_run_preserves_zstack
    (rounded_centroid : List (List Int) → Int → Int × Int)
    (boundary : List (List Int) → Int → List Int × List Int)
    (load_preprocessed load_instance_seg :
      Int × Int × Int × Int → List (List (List Int)))
    (obj : InspectionObjectState) :
    ((run_2D rounded_centroid boundary load_preprocessed load_instance_seg obj).2).zstack
        = obj.zstack ∧
    (run_2D rounded_centroid boundary load_preprocessed load_instance_seg obj).2 = obj :=
  ⟨rfl, rfl⟩

/-- The one field of the external `Database` object that
`run_all_inspection_steps` reads: the optionally-present
`inspection_strategies` attribute (`none` models `hasattr` answering
false). A strategy class is modelled by what instantiating it and
calling `run` on an inspection object produces: a function from the
object to that run's effect. -/
structure DatabaseState (σ ε : Type) where
  inspection_strategies : Option (List (σ → ε))

/-- `InspectionObject.run_all_inspection_steps`: when the database lacks
the `inspection_strategies` attribute the `hasattr` guard skips the body
entirely; otherwise each strategy in the sequence is instantiated and
run on the same inspection object, in sequence order. The `Except`
result records that no error escapes either way; the list collects each
run's effect in execution order. -/
def run_all_inspection_steps {σ ε : Type} (database : DatabaseState σ ε) (obj : σ) :
    Except String (List ε) :=
  match database.inspection_strategies with
  | none => Except.ok []
  | some strategies => Except.ok (strategies.map (fun strategy => strategy obj))

/-- C10: without an `inspection_strategies` attribute the call is a
silent, error-free no-op; with one, every strategy of the sequence runs,
in order, each on the same inspection object. -/
theorem C10_run_all_steps (σ ε : Type) (database : DatabaseState σ ε) (obj : σ) :
    (database.inspection_strategies = none →
      run_all_inspection_steps database obj = Except.ok []) ∧
    (∀ strategies, database.inspection_strategies = some strategies →
      run_all_inspection_steps database obj =
        Except.ok (strategies.map (fun strategy => strategy obj))) := by
  constructor
  · intro h
    unfold run_all_inspection_steps
    rw [h]
  · intro strategies h
    unfold run_all_inspection_steps
    rw [h]

/-- Witness for C10: an absent attribute is a no-op; two strategies over
natural-number states run in order on the same object. -/
theorem C10_run_all_steps_witness :
    run_all_inspection_steps (DatabaseState.mk (none : Option (List (Nat → Nat)))) 0 =
      Except.ok [] ∧
    run_all_inspection_steps
        (DatabaseState.mk (some [fun n => n + 1, fun n => 2 * n])) 3 =
      Except.ok [4, 6] :=
  ⟨(C10_run_all_steps Nat Nat (DatabaseState.mk none) 0).1 rfl,
   by
    rw [(C10_run_all_steps Nat Nat
        (DatabaseState.mk (some [fun n => n + 1, fun n => 2 * n])) 3).2
        [fun n => n + 1, fun n => 2 * n] rfl]
    rfl⟩

end FindMyCells
